import Mathlib

/-!
Verification of the crewAI component-generator core: the dependency
classifier (`supported_libraries.py`, `dependency_validator.py`), the
structural validator (`crewai_validator.py`), the pattern scorer
(`pattern_matcher.py`), the validation gate and retry loop
(`crewai_agent.py`), and the response payloads (`service.py`,
`crewai_agent.py`).  Each definition is a shallow embedding of the
corresponding Python function; candidate source texts are represented by
the outcome of `ast.parse` on them (a syntax error or a module tree)
together with the raw-text facts the code inspects directly.
-/

namespace CrewaiGen

set_option maxRecDepth 10000

/-! ### Python string primitives

`pyLower` models `str.lower` (the registry names are ASCII), `pyIn`
models the Python substring test `sub in s`, `joinSep` models
`sep.join(xs)`, and `pyBaseModule` models `name.split('.')[0]`. -/

def pyLower (s : String) : String := ⟨s.data.map Char.toLower⟩

def charsPre : List Char → List Char → Bool
  | [], _ => true
  | _ :: _, [] => false
  | a :: as, b :: bs => a == b && charsPre as bs

def charsSub (sub : List Char) : List Char → Bool
  | [] => charsPre sub []
  | b :: bs => charsPre sub (b :: bs) || charsSub sub bs

def pyIn (sub s : String) : Bool := charsSub sub.data s.data

def joinSep (sep : String) : List String → String
  | [] => ""
  | [x] => x
  | x :: y :: xs => x ++ sep ++ joinSep sep (y :: xs)

def pyBaseModule (name : String) : String :=
  ⟨name.data.takeWhile (fun c => c ≠ '.')⟩

/-- Python `s.startswith(pre)`. -/
def pyStartsWith (s pre : String) : Bool := charsPre pre.data s.data

/-- `d` occurs as a contiguous substring of `s`. -/
def SubstrOf (d s : String) : Prop := ∃ a b : String, s = a ++ (d ++ b)

/-! ### supported_libraries.py — static registries

Transcribed from `STDLIB_MODULES` and `SUPPORTED_LIBRARIES`.  The Python
set/dict literals contain a few repeated entries (`"traceback"` twice in
the set; `"accelerate"` and `"openpyxl"` twice in the dict, with equal
values); set membership and dict lookup are unaffected, and the dict is
kept here with first-position/last-value semantics. -/

def STDLIB_MODULES : List String := [
  "typing", "types", "sys", "os", "io", "builtins",
  "re", "string", "textwrap", "unicodedata", "stringprep",
  "collections", "array", "heapq", "bisect", "weakref",
  "copy", "pprint", "reprlib", "enum",
  "math", "cmath", "decimal", "fractions", "random", "statistics",
  "itertools", "functools", "operator",
  "pathlib", "os.path", "fileinput", "stat", "filecmp",
  "tempfile", "glob", "fnmatch", "shutil",
  "pickle", "shelve", "dbm", "sqlite3",
  "zlib", "gzip", "bz2", "lzma", "zipfile", "tarfile",
  "csv", "configparser", "json", "xml", "html",
  "urllib", "urllib.request", "urllib.parse", "urllib.error",
  "http", "http.client", "http.server", "socketserver",
  "socket", "ssl",
  "email", "smtplib", "poplib", "imaplib",
  "datetime", "time", "calendar", "zoneinfo",
  "threading", "multiprocessing", "concurrent", "subprocess",
  "queue", "asyncio",
  "contextvars",
  "hashlib", "hmac", "secrets",
  "getpass", "curses", "platform", "errno", "ctypes",
  "logging", "warnings", "pdb", "trace", "traceback",
  "dataclasses", "abc", "atexit", "traceback", "gc",
  "inspect", "importlib",
  "ast", "symtable", "token", "keyword", "tokenize",
  "dis", "pickletools"]

def SUPPORTED_LIBRARIES : List (String × String) := [
  ("accelerate", "1.12.0"),
  ("crewai", "1.5.0"),
  ("crewai-tools", "1.5.0"),
  ("anthropic", "0.75.0"),
  ("openai", "2.8.1"),
  ("groq", "0.36.0"),
  ("litellm", "1.80.5"),
  ("ollama", "0.6.1"),
  ("langchain", "1.1.0"),
  ("langchain-classic", "1.0.0"),
  ("langchain-community", "0.4.1"),
  ("langchain-core", "1.1.0"),
  ("langchain-groq", "1.1.0"),
  ("langchain-ollama", "1.0.0"),
  ("langchain-openai", "1.1.0"),
  ("langchain-text-splitters", "1.0.0"),
  ("langchain-anthropic", "1.2.0"),
  ("langgraph", "1.0.3"),
  ("langgraph-checkpoint", "3.0.1"),
  ("langgraph-prebuilt", "1.0.5"),
  ("langgraph-sdk", "0.2.10"),
  ("langsmith", "0.4.47"),
  ("pandas", "2.3.3"),
  ("numpy", "2.2.6"),
  ("scipy", "1.16.3"),
  ("openpyxl", "3.1.5"),
  ("xlsxwriter", "3.2.9"),
  ("et_xmlfile", "2.0.0"),
  ("narwhals", "2.12.0"),
  ("pyarrow", "21.0.0"),
  ("requests", "2.32.5"),
  ("requests-oauthlib", "2.0.0"),
  ("requests-toolbelt", "1.0.0"),
  ("httpx", "0.28.1"),
  ("httpx-sse", "0.4.3"),
  ("httpcore", "1.0.9"),
  ("httptools", "0.7.1"),
  ("aiohttp", "3.13.2"),
  ("aiohappyeyeballs", "2.6.1"),
  ("aiosignal", "1.4.0"),
  ("h11", "0.16.0"),
  ("primp", "0.15.0"),
  ("beautifulsoup4", "4.14.2"),
  ("soupsieve", "2.8"),
  ("lxml", "6.0.2"),
  ("pypdf", "6.4.0"),
  ("pdfplumber", "0.11.8"),
  ("pdfminer.six", "20251107"),
  ("python-docx", "1.2.0"),
  ("python-pptx", "1.0.2"),
  ("docling", "2.63.0"),
  ("docling-core", "2.52.0"),
  ("docling-ibm-models", "3.10.2"),
  ("docling-parse", "4.7.1"),
  ("pypdfium2", "4.30.0"),
  ("chromadb", "1.1.1"),
  ("lancedb", "0.25.3"),
  ("lance-namespace", "0.0.21"),
  ("lance-namespace-urllib3-client", "0.0.21"),
  ("pylance", "0.39.0"),
  ("sqlalchemy", "2.0.44"),
  ("psycopg2-binary", "2.9.11"),
  ("snowflake-connector-python", "4.1.0"),
  ("pydantic", "2.12.4"),
  ("pydantic-settings", "2.12.0"),
  ("pydantic_core", "2.41.5"),
  ("pyyaml", "6.0.3"),
  ("python-dotenv", "1.2.1"),
  ("toml", "0.10.2"),
  ("tomli", "2.3.0"),
  ("tomli_w", "1.2.0"),
  ("tomlkit", "0.13.3"),
  ("json5", "0.12.1"),
  ("json_repair", "0.25.2"),
  ("jsonlines", "4.0.0"),
  ("jsonpatch", "1.33"),
  ("jsonpointer", "3.0.0"),
  ("jsonref", "1.1.0"),
  ("jsonschema", "4.25.1"),
  ("jsonschema-specifications", "2025.9.1"),
  ("orjson", "3.11.4"),
  ("ormsgpack", "1.12.0"),
  ("streamlit", "1.51.0"),
  ("starlette", "0.50.0"),
  ("sse-starlette", "3.0.3"),
  ("uvicorn", "0.38.0"),
  ("fastapi", "Derived"),
  ("duckduckgo-search", "8.1.1"),
  ("pillow", "11.3.0"),
  ("opencv-python", "4.12.0.88"),
  ("pytube", "15.0.0"),
  ("youtube-transcript-api", "1.2.3"),
  ("boto3", "1.41.3"),
  ("botocore", "1.41.3"),
  ("s3transfer", "0.15.0"),
  ("docker", "7.1.0"),
  ("kubernetes", "34.1.0"),
  ("python-dateutil", "2.9.0.post0"),
  ("pytz", "2025.2"),
  ("tzdata", "2025.2"),
  ("regex", "2025.11.3"),
  ("Markdown", "3.10"),
  ("markdown-it-py", "4.0.0"),
  ("marko", "2.2.1"),
  ("MarkupSafe", "3.0.3"),
  ("Faker", "38.2.0"),
  ("colorama", "0.4.6"),
  ("coloredlogs", "15.0.1"),
  ("colorlog", "6.10.1"),
  ("rich", "14.2.0"),
  ("Pygments", "2.19.2"),
  ("typing_extensions", "4.15.0"),
  ("typing-inspect", "0.9.0"),
  ("typing-inspection", "0.4.2"),
  ("mypy_extensions", "1.1.0"),
  ("annotated-types", "0.7.0"),
  ("anyio", "4.11.0"),
  ("sniffio", "1.3.1"),
  ("greenlet", "3.2.4"),
  ("cryptography", "46.0.3"),
  ("bcrypt", "5.0.0"),
  ("asn1crypto", "1.5.1"),
  ("pyOpenSSL", "25.3.0"),
  ("PyJWT", "2.10.1"),
  ("oauthlib", "3.3.1"),
  ("antlr4-python3-runtime", "4.9.3"),
  ("docstring_parser", "0.17.0"),
  ("tree-sitter", "0.25.2"),
  ("tree-sitter-c", "0.24.1"),
  ("tree-sitter-java", "0.23.5"),
  ("tree-sitter-javascript", "0.25.0"),
  ("tree-sitter-python", "0.25.0"),
  ("tree-sitter-typescript", "0.23.2"),
  ("torch", "2.9.1"),
  ("torchvision", "0.24.1"),
  ("transformers", "4.57.2"),
  ("tokenizers", "0.22.1"),
  ("safetensors", "0.7.0"),
  ("huggingface-hub", "0.36.0"),
  ("onnxruntime", "1.23.2"),
  ("tiktoken", "0.12.0"),
  ("urllib3", "2.3.0"),
  ("certifi", "2025.11.12"),
  ("charset-normalizer", "3.4.4"),
  ("idna", "3.11"),
  ("websocket-client", "1.9.0"),
  ("websockets", "15.0.1"),
  ("cachetools", "6.2.2"),
  ("diskcache", "5.6.3"),
  ("psutil", "7.1.3"),
  ("watchdog", "6.0.0"),
  ("watchfiles", "1.1.1"),
  ("platformdirs", "4.5.0"),
  ("appdirs", "1.4.4"),
  ("tqdm", "4.67.1"),
  ("tabulate", "0.9.0"),
  ("click", "8.3.1"),
  ("typer", "0.19.2"),
  ("shellingham", "1.5.4"),
  ("pre_commit", "4.5.0"),
  ("pluggy", "1.6.0"),
  ("polyfactory", "3.0.0"),
  ("build", "1.3.0"),
  ("setuptools", "80.9.0"),
  ("packaging", "25.0"),
  ("pyproject_hooks", "1.2.0"),
  ("uv", "0.9.11"),
  ("protobuf", "6.33.1"),
  ("googleapis-common-protos", "1.72.0"),
  ("grpcio", "1.76.0"),
  ("opentelemetry-api", "1.38.0"),
  ("opentelemetry-exporter-otlp-proto-common", "1.38.0"),
  ("opentelemetry-exporter-otlp-proto-grpc", "1.38.0"),
  ("opentelemetry-exporter-otlp-proto-http", "1.38.0"),
  ("opentelemetry-proto", "1.38.0"),
  ("opentelemetry-sdk", "1.38.0"),
  ("opentelemetry-semantic-conventions", "0.59b0"),
  ("posthog", "5.4.0"),
  ("attrs", "25.4.0"),
  ("backoff", "2.2.1"),
  ("defusedxml", "0.7.1"),
  ("deprecation", "2.1.0"),
  ("dill", "0.4.0"),
  ("distlib", "0.4.0"),
  ("distro", "1.9.0"),
  ("durationpy", "0.10"),
  ("fastuuid", "0.14.0"),
  ("filelock", "3.20.0"),
  ("filetype", "1.2.0"),
  ("flatbuffers", "25.9.23"),
  ("frozenlist", "1.8.0"),
  ("fsspec", "2025.10.0"),
  ("gitdb", "4.0.12"),
  ("GitPython", "3.1.45"),
  ("google-auth", "2.43.0"),
  ("humanfriendly", "10.0"),
  ("identify", "2.6.15"),
  ("importlib_metadata", "8.7.0"),
  ("importlib_resources", "6.5.2"),
  ("instructor", "1.13.0"),
  ("jinja2", "3.1.6"),
  ("jiter", "0.11.1"),
  ("jmespath", "1.0.1"),
  ("latex2mathml", "3.78.1"),
  ("marshmallow", "3.26.1"),
  ("mcp", "1.22.0"),
  ("mdurl", "0.1.2"),
  ("mmh3", "5.2.0"),
  ("mpire", "2.10.2"),
  ("mpmath", "1.3.0"),
  ("multidict", "6.7.0"),
  ("multiprocess", "0.70.18"),
  ("networkx", "3.6"),
  ("nodeenv", "1.9.1"),
  ("omegaconf", "2.3.0"),
  ("overrides", "7.7.0"),
  ("portalocker", "2.7.0"),
  ("propcache", "0.4.1"),
  ("pyasn1", "0.6.1"),
  ("pyasn1_modules", "0.4.2"),
  ("pybase64", "1.4.2"),
  ("pyclipper", "1.3.0.post6"),
  ("pycparser", "2.23"),
  ("pydeck", "0.9.1"),
  ("pylatexenc", "2.10"),
  ("PyPika", "0.48.9"),
  ("pyreadline3", "3.5.4"),
  ("python-multipart", "0.0.20"),
  ("rapidocr", "3.4.2"),
  ("referencing", "0.37.0"),
  ("rpds-py", "0.29.0"),
  ("rsa", "4.9.1"),
  ("rtree", "1.4.1"),
  ("semchunk", "2.2.2"),
  ("shapely", "2.1.2"),
  ("six", "1.17.0"),
  ("smmap", "5.0.2"),
  ("sortedcontainers", "2.4.0"),
  ("sympy", "1.14.0"),
  ("tenacity", "9.1.2"),
  ("tornado", "6.5.2"),
  ("ty", "0.0.1a27"),
  ("virtualenv", "20.35.4"),
  ("xxhash", "3.6.0"),
  ("yarl", "1.22.0"),
  ("zipp", "3.23.0"),
  ("zstandard", "0.25.0"),
  ("cffi", "2.0.0"),
  ("cfgv", "3.5.0"),
  ("blinker", "1.9.0"),
  ("altair", "5.5.0"),
  ("dataclasses-json", "0.6.7")]

/-! ### supported_libraries.py — helper functions -/

/-- `is_stdlib`: the base module (`name.split('.')[0]`) is looked up
case-sensitively in `STDLIB_MODULES`. -/
def is_stdlib (library_name : String) : Bool :=
  STDLIB_MODULES.contains (pyBaseModule library_name)

/-- `is_supported`: stdlib first, then a case-insensitive scan of the
`SUPPORTED_LIBRARIES` keys. -/
def is_supported (library_name : String) : Bool :=
  if is_stdlib library_name then true
  else
    SUPPORTED_LIBRARIES.any (fun lib => pyLower lib.1 == pyLower library_name)

/-- The entries of `ALTERNATIVES_MAP` in `get_alternatives`, sentinel
`"default"` entry included (it is a genuine dict key). -/
def ALTERNATIVES_MAP : List (String × List String) := [
  ("urllib2", ["urllib.request (stdlib)", "requests"]),
  ("urllib3", ["urllib.request (stdlib)", "httpx"]),
  ("polars", ["pandas"]),
  ("simplejson", ["json (stdlib)", "orjson"]),
  ("ujson", ["json (stdlib)", "orjson"]),
  ("arrow", ["datetime (stdlib)", "python-dateutil"]),
  ("pendulum", ["datetime (stdlib)", "python-dateutil"]),
  ("scrapy", ["beautifulsoup4", "lxml"]),
  ("pymongo", ["Use REST API with requests"]),
  ("redis", ["Use REST API with requests"]),
  ("default", ["Implement manually using Python stdlib"])]

/-- `get_alternatives`: dict lookup with the `"default"` fallback, then
the category heuristic on substrings of the lowered name overrides the
looked-up value. -/
def get_alternatives (library_name : String) : List String :=
  let l := pyLower library_name
  let alternatives :=
    (ALTERNATIVES_MAP.lookup l).getD ["Implement manually using Python stdlib"]
  if pyIn "http" l || pyIn "web" l then
    ["requests", "httpx", "urllib.request (stdlib)"]
  else if pyIn "json" l then
    ["json (stdlib)", "orjson"]
  else if pyIn "csv" l then
    ["csv (stdlib)", "pandas"]
  else
    alternatives

/-- Python dict assignment `m[k] = v`: overwrite in place, else append. -/
def dictSet {α : Type} (m : List (String × α)) (k : String) (v : α) :
    List (String × α) :=
  if m.any (fun p => p.1 == k) then
    m.map (fun p => if p.1 == k then (k, v) else p)
  else
    m ++ [(k, v)]

/-- The dictionary returned by `validate_dependencies`. -/
structure BaseValidation where
  all_supported : Bool
  supported : List String
  unsupported : List String
  stdlib : List String
  external : List String
  alternatives : List (String × List String)
  total : Nat
  supported_count : Nat
  unsupported_count : Nat
deriving DecidableEq

/-- One iteration of the `for dep in dependencies` loop of
`validate_dependencies`, threading the five accumulators. -/
def classifyStep (acc : List String × List String × List String × List String ×
    List (String × List String)) (dep : String) :
    List String × List String × List String × List String ×
      List (String × List String) :=
  let (supported, unsupported, stdlib, external, alternatives) := acc
  if is_stdlib dep then
    (supported ++ [dep], unsupported, stdlib ++ [dep], external, alternatives)
  else if is_supported dep then
    (supported ++ [dep], unsupported, stdlib, external ++ [dep], alternatives)
  else
    (supported, unsupported ++ [dep], stdlib, external,
      dictSet alternatives dep (get_alternatives dep))

/-- `validate_dependencies` from `supported_libraries.py`. -/
def validate_dependencies (dependencies : List String) : BaseValidation :=
  let (supported, unsupported, stdlib, external, alternatives) :=
    dependencies.foldl classifyStep ([], [], [], [], [])
  { all_supported := unsupported.length == 0
    supported := supported
    unsupported := unsupported
    stdlib := stdlib
    external := external
    alternatives := alternatives
    total := dependencies.length
    supported_count := supported.length
    unsupported_count := unsupported.length }

/-! ### dependency_validator.py — DependencyValidator

The validator wraps `validate_dependencies` and adds warnings,
suggestions, `can_proceed` and `severity`.  Python f-string
interpolations are rendered by concatenation; the multibyte prefixes of
the messages are transcribed byte-for-byte from the source file. -/

structure DependencyValidationResult where
  all_supported : Bool
  supported : List String
  unsupported : List String
  stdlib : List String
  external : List String
  alternatives : List (String × List String)
  manual_implementation_needed : Bool
  warnings : List String
  suggestions : List String
  can_proceed : Bool
  severity : String
deriving DecidableEq

/-- `special_attention_libs` of `DependencyValidator._load_validation_rules`. -/
def special_attention_libs : List (String × String) := [
  ("crewai", "Core CrewAI library - ensure proper usage of BaseTool"),
  ("crewai-tools", "Official CrewAI tools - check for existing implementations"),
  ("anthropic", "Anthropic API - requires API key configuration"),
  ("openai", "OpenAI API - requires API key configuration"),
  ("chromadb", "Vector database - ensure proper initialization"),
  ("pandas", "Data processing - can be heavy, consider stdlib alternatives"),
  ("numpy", "Numeric processing - can be heavy, consider math/statistics")]

/-- `stdlib_replacements` of `_suggest_stdlib_alternatives`. -/
def stdlib_replacements : List (String × String) := [
  ("requests", "urllib.request"),
  ("httpx", "urllib.request"),
  ("beautifulsoup4", "html.parser"),
  ("ujson", "json"),
  ("simplejson", "json"),
  ("arrow", "datetime"),
  ("pendulum", "datetime"),
  ("python-dateutil", "datetime (for basic operations)")]

/-- `DependencyValidator._suggest_stdlib_alternatives`. -/
def suggest_stdlib_alternatives (external_deps : List String) : List String :=
  external_deps.filterMap fun dep =>
    match stdlib_replacements.lookup dep with
    | some stdlib_alt =>
        some ("‚ö° Performance tip: '" ++ dep ++ "' could be replaced with " ++
          "stdlib '" ++ stdlib_alt ++ "' for simpler use cases")
    | none => none

/-- The per-unsupported-dependency body of the warnings/suggestions loop
in `DependencyValidator.validate`. -/
def unsupportedMessages (base : BaseValidation) (suggest_manual : Bool)
    (dep : String) : List String × List String :=
  let warning := "‚ö†Ô∏è  '" ++ dep ++ "' is not available in CrewAI-Studio environment"
  let alts := (base.alternatives.lookup dep).getD []
  let s1 := if alts.isEmpty then [] else
    ["üí° Consider using: " ++ joinSep ", " alts]
  let s2 := if suggest_manual then
    ["üîß Manual implementation recommended for '" ++ dep ++ "' using Python stdlib"]
  else []
  ([warning], s1 ++ s2)

/-- `DependencyValidator.validate` (defaults in the source:
`strict = False`, `suggest_manual = True`). -/
def dependencyValidate (dependencies : List String) (strict : Bool)
    (suggest_manual : Bool) : DependencyValidationResult :=
  let base := validate_dependencies dependencies
  let unsupportedNonempty := !base.unsupported.isEmpty
  let manual_implementation_needed := unsupportedNonempty
  let severity :=
    if unsupportedNonempty then (if strict then "error" else "warning")
    else "success"
  let can_proceed := !(unsupportedNonempty && strict)
  let loopMsgs := base.unsupported.map (unsupportedMessages base suggest_manual)
  let warnings :=
    (loopMsgs.map Prod.fst).flatten ++
      (if unsupportedNonempty && strict then
        ["‚ùå Strict mode: Cannot proceed with unsupported dependencies"]
      else [])
  let specialSuggestions := base.supported.filterMap fun dep =>
    (special_attention_libs.lookup dep).map fun note => "üìù " ++ dep ++ ": " ++ note
  let stdlibSuggestions :=
    if base.external.isEmpty then [] else suggest_stdlib_alternatives base.external
  let suggestions := (loopMsgs.map Prod.snd).flatten ++ specialSuggestions ++
    stdlibSuggestions
  { all_supported := base.all_supported
    supported := base.supported
    unsupported := base.unsupported
    stdlib := base.stdlib
    external := base.external
    alternatives := base.alternatives
    manual_implementation_needed := manual_implementation_needed
    warnings := warnings
    suggestions := suggestions
    can_proceed := can_proceed
    severity := severity }

/-! ### Python AST model

The fragment of the `ast` node language the validator and pattern
matcher inspect.  A candidate source text is represented by the outcome
of `ast.parse` on it — a `SyntaxError` (line and message) or a module
tree — plus the raw-text containment facts `_check_security` reads
straight off the text. -/

inductive PyExpr where
  | name (id : String)
  | strConst (s : String)
  | call (fn : PyExpr) (args : List PyExpr)
  | otherExpr

inductive PyStmt where
  | imp (names : List String)
  | impFrom (module : Option String) (names : List String)
  | classDef (cname : String) (bases : List PyExpr) (body : List PyStmt)
  | funcDef (fname : String) (argCount : Nat) (hasReturns : Bool)
      (body : List PyStmt)
  | annAssign (target : PyExpr) (value : Option PyExpr)
  | assign (targets : List PyExpr) (value : PyExpr)
  | exprStmt (value : PyExpr)
  | tryStmt (body handlers orelse finalbody : List PyStmt)
  | passStmt

structure PyModule where
  body : List PyStmt

structure PySynErr where
  lineno : Nat
  msg : String
deriving DecidableEq

structure Candidate where
  parsed : Except PySynErr PyModule
  textHasOsSystem : Bool
  textHasSubprocessCall : Bool
  textHasSubprocessPopen : Bool

/- All statement nodes of the tree, the node itself first (`ast.walk`
restricted to statements; the checks below only take membership and
first-match facts from it, and at one nesting level the orders coincide
with `ast.walk`). -/
mutual
def walkStmt : PyStmt → List PyStmt
  | .classDef n b body => .classDef n b body :: walkStmts body
  | .funcDef n a r body => .funcDef n a r body :: walkStmts body
  | .tryStmt b h o f =>
      .tryStmt b h o f :: (walkStmts b ++ walkStmts h ++ walkStmts o ++ walkStmts f)
  | s => [s]
termination_by structural s => s
def walkStmts : List PyStmt → List PyStmt
  | [] => []
  | s :: rest => walkStmt s ++ walkStmts rest
termination_by structural l => l
end

/- The `ast.Call` nodes inside an expression, in pre-order. -/
mutual
def callsInExpr : PyExpr → List PyExpr
  | .call fn args => .call fn args :: (callsInExpr fn ++ callsInExprs args)
  | _ => []
termination_by structural e => e
def callsInExprs : List PyExpr → List PyExpr
  | [] => []
  | e :: es => callsInExpr e ++ callsInExprs es
termination_by structural l => l
end

/-- The expressions a statement holds directly. -/
def stmtExprs : PyStmt → List PyExpr
  | .classDef _ bases _ => bases
  | .annAssign t v => t :: v.toList
  | .assign ts v => ts ++ [v]
  | .exprStmt v => [v]
  | _ => []

/-- All `ast.Call` nodes of a module. -/
def moduleCalls (m : PyModule) : List PyExpr :=
  callsInExprs ((walkStmts m.body).map stmtExprs).flatten

/-- A convenient view of one `ast.ClassDef` node. -/
structure ClassD where
  cname : String
  bases : List PyExpr
  cbody : List PyStmt

/-- The `ast.ClassDef` nodes of the tree, in walk order. -/
def classesOf (m : PyModule) : List ClassD :=
  (walkStmts m.body).filterMap fun s =>
    match s with
    | .classDef n b body => some ⟨n, b, body⟩
    | _ => none

/-- `any(base.id == name if isinstance(base, ast.Name) else False
for base in cls.bases)`. -/
def hasBase (c : ClassD) (base : String) : Bool :=
  c.bases.any fun b =>
    match b with
    | .name id => id == base
    | _ => false

/-- `ast.get_docstring`: the first body statement is a string constant. -/
def getDocstring : List PyStmt → Option String
  | .exprStmt (.strConst s) :: _ => some s
  | _ => none

/-- Python truthiness of `ast.get_docstring(...)` (an empty docstring is
falsy). -/
def truthyDoc : Option String → Bool
  | some s => !(s == "")
  | none => false

/-! ### crewai_validator.py — CrewAIToolValidator

Message strings that Python builds by joining a set are rendered here by
joining the filtered list in the source literal's order; the theorems
below use only emptiness and membership of these messages. -/

structure ValidationResult where
  is_valid : Bool
  errors : List String
  warnings : List String
  suggestions : List String
deriving DecidableEq

def FORBIDDEN_IMPORTS : List String :=
  ["os.system", "subprocess.Popen", "eval", "exec", "__import__"]

def REQUIRED_ATTRIBUTES : List String := ["name", "description", "args_schema"]

def REQUIRED_METHODS : List String := ["_run", "run"]

/-- `_check_syntax`: the message for a failed `ast.parse`. -/
def synErrLineMsg (e : PySynErr) : String :=
  "Syntax error at line " ++ toString e.lineno ++ ": " ++ e.msg

/-- The import-name set of `CrewAIToolValidator._check_imports`:
`alias.name` for `ast.Import`, the (truthy) `node.module` for
`ast.ImportFrom`. -/
def vCollectImports (m : PyModule) : List String :=
  ((walkStmts m.body).map fun s =>
    match s with
    | .imp names => names
    | .impFrom (some mod) _ => if mod == "" then [] else [mod]
    | _ => []).flatten

/-- `CrewAIToolValidator._check_imports`. -/
def vCheckImports (m : PyModule) : List String × List String :=
  let imports := vCollectImports m
  let forbiddenErrors := (FORBIDDEN_IMPORTS.filter fun f =>
      imports.any fun i => pyIn f i).map
    fun f => "Forbidden import detected: " ++ f
  let requiredErrors :=
    if imports.any (fun i => pyIn "BaseTool" i || pyIn "crewai" i) then []
    else ["Missing required import: crewai.tools.BaseTool"]
  (forbiddenErrors ++ requiredErrors, [])

/-- `CrewAIToolValidator._check_class_structure`. -/
def vCheckClassStructure (m : PyModule) :
    List String × List String × List String :=
  let classes := classesOf m
  if classes.isEmpty then
    (["No class definition found"], [], [])
  else
    match classes.find? (fun c => hasBase c "BaseTool") with
    | none => (["No class inheriting from BaseTool found"], [], [])
    | some _ =>
      let schema_classes := classes.filter fun c => hasBase c "BaseModel"
      if schema_classes.isEmpty then
        ([], ["No input schema class (BaseModel) found - tool may not have structured inputs"], [])
      else ([], [], [])

/-- `CrewAIToolValidator._check_security`: dangerous calls from the
tree, shell-execution markers from the raw text. -/
def vCheckSecurity (m : PyModule) (c : Candidate) :
    List String × List String :=
  let dangerous_functions := ["eval", "exec", "__import__", "compile"]
  let errors := (moduleCalls m).filterMap fun e =>
    match e with
    | .call (.name id) _ =>
        if dangerous_functions.contains id then
          some ("Dangerous function call detected: " ++ id)
        else none
    | _ => none
  let warnings :=
    if c.textHasOsSystem || c.textHasSubprocessCall || c.textHasSubprocessPopen then
      ["Shell command execution detected - ensure proper input sanitization"]
    else []
  (errors, warnings)

/-- Class attributes in the sense of `_check_basetool_compliance`:
targets of `ast.AnnAssign` and `ast.Assign` in the class body. -/
def classAttrNames (body : List PyStmt) : List String :=
  (body.map fun item =>
    match item with
    | .annAssign (.name id) _ => [id]
    | .assign ts _ => ts.filterMap fun t =>
        match t with
        | .name id => some id
        | _ => none
    | _ => []).flatten

/-- Method names of the class body (`ast.FunctionDef` items). -/
def classMethodNames (body : List PyStmt) : List String :=
  body.filterMap fun item =>
    match item with
    | .funcDef n _ _ _ => some n
    | _ => none

/-- `CrewAIToolValidator._check_basetool_compliance`. -/
def vCheckBasetoolCompliance (m : PyModule) : List String × List String :=
  match (classesOf m).find? (fun c => hasBase c "BaseTool") with
  | none => ([], [])
  | some tc =>
    let class_attrs := classAttrNames tc.cbody
    let methods := classMethodNames tc.cbody
    let missing_attrs := REQUIRED_ATTRIBUTES.filter fun a => !class_attrs.contains a
    let attrErrors :=
      if missing_attrs.isEmpty then []
      else ["Missing required attributes: " ++ joinSep ", " missing_attrs]
    let missing_methods := REQUIRED_METHODS.filter fun msig => !methods.contains msig
    let methodErrors :=
      if missing_methods.isEmpty then []
      else ["Missing required methods: " ++ joinSep ", " missing_methods]
    let runSuggestions :=
      if methods.contains "_run" then
        match tc.cbody.find? (fun item =>
          match item with
          | .funcDef n _ _ _ => n == "_run"
          | _ => false) with
        | some (.funcDef _ argCount _ _) =>
            if argCount < 2 then ["_run method should accept input parameters"]
            else []
        | _ => []
      else []
    (attrErrors ++ methodErrors, runSuggestions)

/-- `CrewAIToolValidator.validate`: on a syntax error, the early return;
otherwise errors, warnings and suggestions aggregated over the four
structural checks, `is_valid` iff no errors. -/
def validatorValidate (c : Candidate) : ValidationResult :=
  match c.parsed with
  | .error e =>
      { is_valid := false
        errors := [synErrLineMsg e]
        warnings := []
        suggestions := ["Fix syntax errors before proceeding"] }
  | .ok m =>
      let importRes := vCheckImports m
      let classRes := vCheckClassStructure m
      let securityRes := vCheckSecurity m c
      let basetoolRes := vCheckBasetoolCompliance m
      let errors := importRes.1 ++ classRes.1 ++ securityRes.1 ++ basetoolRes.1
      let warnings := importRes.2 ++ classRes.2.1 ++ securityRes.2
      let suggestions := classRes.2.2 ++ basetoolRes.2
      { is_valid := errors.isEmpty
        errors := errors
        warnings := warnings
        suggestions := suggestions }

/-! ### pattern_matcher.py — PatternMatcher

`analyze` is embedded into `Except String PatternMatchResult`: the
`.error` constructor models an uncaught Python exception.  On a
`SyntaxError` the source catches it and returns the zero-score result;
on a successfully parsed module with an empty body, `_check_docstrings`
evaluates `tree.body[0]` and raises `IndexError` — the lone uncaught
exception on this path. -/

structure PatternMatchResult where
  matches_pattern : Bool
  pattern_score : Nat
  has_base_tool : Bool
  has_args_schema : Bool
  has_run_method : Bool
  has_docstrings : Bool
  has_error_handling : Bool
  issues : List String
  suggestions : List String
  best_practices : List String
  warnings : List String
deriving DecidableEq

/-- `str(SyntaxError)` as interpolated by `analyze` into its issue
message (CPython renders the message and the location). -/
def pySynErrStr (e : PySynErr) : String :=
  e.msg ++ " (<unknown>, line " ++ toString e.lineno ++ ")"

/-- `PatternMatcher._check_base_tool_inheritance`. -/
def pCheckBaseTool (m : PyModule) : Bool :=
  (classesOf m).any fun c => hasBase c "BaseTool"

/-- `PatternMatcher._check_args_schema`. -/
def pCheckArgsSchema (m : PyModule) : Bool :=
  (classesOf m).any fun c =>
    c.cbody.any fun item =>
      match item with
      | .annAssign (.name id) _ => id == "args_schema"
      | _ => false

/-- `PatternMatcher._check_run_method`. -/
def pCheckRunMethod (m : PyModule) : Bool :=
  (classesOf m).any fun c =>
    c.cbody.any fun item =>
      match item with
      | .funcDef n _ _ _ => n == "_run"
      | _ => false

/-- `PatternMatcher._check_docstrings`: `tree.body[0]` raises
`IndexError` when the module body is empty; otherwise true iff some
class has a (truthy) docstring and some method of some class does. -/
def pCheckDocstrings (m : PyModule) : Except String Bool :=
  match m.body with
  | [] => .error "IndexError: list index out of range"
  | _ =>
    let classes := classesOf m
    let has_class_docstring := classes.any fun c => truthyDoc (getDocstring c.cbody)
    let has_method_docstring := classes.any fun c =>
      c.cbody.any fun item =>
        match item with
        | .funcDef _ _ _ fbody => truthyDoc (getDocstring fbody)
        | _ => false
    .ok (has_class_docstring && has_method_docstring)

/-- `PatternMatcher._check_error_handling`. -/
def pCheckErrorHandling (m : PyModule) : Bool :=
  (walkStmts m.body).any fun s =>
    match s with
    | .tryStmt _ _ _ _ => true
    | _ => false

/-- The imported-name set of `PatternMatcher._check_imports`:
`alias.name` for both `ast.Import` and `ast.ImportFrom`. -/
def pCollectImportedNames (m : PyModule) : List String :=
  ((walkStmts m.body).map fun s =>
    match s with
    | .imp names => names
    | .impFrom _ names => names
    | _ => []).flatten

def pRequiredImports : List String := ["BaseTool", "BaseModel", "Field"]

/-- `PatternMatcher._check_imports`. -/
def pCheckImports (m : PyModule) : Bool × List String :=
  let imported_names := pCollectImportedNames m
  let missing := pRequiredImports.filter fun r => !imported_names.contains r
  if missing.isEmpty then (true, [])
  else (false, ["Missing required imports: " ++ joinSep ", " missing])

/-- `PatternMatcher._check_type_hints`: public methods (and `_run`)
without a return annotation. -/
def pCheckTypeHints (m : PyModule) : Bool × List String :=
  let functions_without_hints := (walkStmts m.body).filterMap fun s =>
    match s with
    | .funcDef n _ hasReturns _ =>
        if pyStartsWith n "_" && !(n == "_run") then none
        else if hasReturns then none
        else some n
    | _ => none
  if functions_without_hints.isEmpty then (true, [])
  else (false, ["Consider adding type hints to: " ++
    joinSep ", " functions_without_hints])

def pRequiredAttributes : List String := ["name", "description", "args_schema"]

/-- `PatternMatcher._check_required_attributes`: `ast.AnnAssign` targets
collected over every class inheriting `BaseTool`. -/
def pCheckRequiredAttributes (m : PyModule) : Bool × List String :=
  let found_attributes := (((classesOf m).filter fun c =>
    hasBase c "BaseTool").map fun c =>
      c.cbody.filterMap fun item =>
        match item with
        | .annAssign (.name id) _ => some id
        | _ => none).flatten
  let missing := pRequiredAttributes.filter fun r => !found_attributes.contains r
  if missing.isEmpty then (true, [])
  else (false, ["Missing required attributes: " ++ joinSep ", " missing])

/-- `PatternMatcher._calculate_pattern_score`. -/
def calculate_pattern_score (has_base_tool has_run_method has_args_schema
    has_docstrings has_error_handling imports_valid type_hints_valid
    attrs_valid : Bool) : Nat :=
  (if has_base_tool then 25 else 0) +
  (if has_run_method then 25 else 0) +
  (if has_args_schema then 15 else 0) +
  (if has_docstrings then 10 else 0) +
  (if has_error_handling then 10 else 0) +
  (if imports_valid then 5 else 0) +
  (if type_hints_valid then 5 else 0) +
  (if attrs_valid then 5 else 0)

/-- `PatternMatcher._get_improvement_suggestions`. -/
def improvementSuggestions (has_base_tool has_args_schema has_run_method
    has_docstrings has_error_handling : Bool) : List String :=
  (if !has_base_tool then ["Inherit from BaseTool class"] else []) ++
  (if !has_run_method then ["Implement _run() method"] else []) ++
  (if !has_args_schema then ["Define args_schema with Pydantic BaseModel"] else []) ++
  (if !has_docstrings then ["Add comprehensive docstrings to class and methods"] else []) ++
  (if !has_error_handling then ["Add try/except error handling in _run() method"] else [])

/-- `PatternMatcher._identify_best_practices`. -/
def identifyBestPractices (has_base_tool has_args_schema has_run_method
    has_docstrings has_error_handling : Bool) : List String :=
  (if has_base_tool then ["✅ Inherits from BaseTool (official pattern)"] else []) ++
  (if has_args_schema then ["✅ Defines args_schema with Pydantic validation"] else []) ++
  (if has_run_method then ["✅ Implements _run() method (required)"] else []) ++
  (if has_docstrings then ["✅ Includes comprehensive docstrings"] else []) ++
  (if has_error_handling then ["✅ Includes error handling (robust)"] else [])

/-- `PatternMatcher.analyze`. -/
def analyze (c : Candidate) : Except String PatternMatchResult :=
  match c.parsed with
  | .error e =>
      .ok { matches_pattern := false
            pattern_score := 0
            has_base_tool := false
            has_args_schema := false
            has_run_method := false
            has_docstrings := false
            has_error_handling := false
            issues := ["Syntax error: " ++ pySynErrStr e]
            suggestions := ["Fix syntax errors before validation"]
            best_practices := []
            warnings := [] }
  | .ok m =>
      let has_base_tool := pCheckBaseTool m
      let has_args_schema := pCheckArgsSchema m
      let has_run_method := pCheckRunMethod m
      match pCheckDocstrings m with
      | .error err => .error err
      | .ok has_docstrings =>
        let has_error_handling := pCheckErrorHandling m
        let imports_valid := (pCheckImports m).1
        let type_hints_valid := (pCheckTypeHints m).1
        let attrs_valid := (pCheckRequiredAttributes m).1
        let issues := (pCheckImports m).2 ++ (pCheckRequiredAttributes m).2
        let pattern_score := calculate_pattern_score has_base_tool
          has_run_method has_args_schema has_docstrings has_error_handling
          imports_valid type_hints_valid attrs_valid
        let matches_pattern :=
          decide (80 ≤ pattern_score) && has_base_tool && has_run_method
        let suggestions := (pCheckTypeHints m).2 ++
          (if pattern_score < 100 then
            improvementSuggestions has_base_tool has_args_schema
              has_run_method has_docstrings has_error_handling
          else [])
        let best_practices := identifyBestPractices has_base_tool
          has_args_schema has_run_method has_docstrings has_error_handling
        let warnings :=
          (if !has_error_handling then
            ["No error handling detected - tool may fail ungracefully"] else []) ++
          (if !has_docstrings then
            ["Missing docstrings - reduces code maintainability"] else [])
        .ok { matches_pattern := matches_pattern
              pattern_score := pattern_score
              has_base_tool := has_base_tool
              has_args_schema := has_args_schema
              has_run_method := has_run_method
              has_docstrings := has_docstrings
              has_error_handling := has_error_handling
              issues := issues
              suggestions := suggestions
              best_practices := best_practices
              warnings := warnings }

/-! ### crewai_agent.py — the Validation Gate -/

/-- `CrewAIToolGenerator.validate_tool`: structural validation and
pattern analysis combined; the merged result is valid iff the structural
result is valid and the pattern score is at least 70.  The `.error`
constructor propagates the uncaught exception of `analyze`. -/
def validate_tool (c : Candidate) : Except String ValidationResult :=
  let ast_validation := validatorValidate c
  match analyze c with
  | .error e => .error e
  | .ok pattern_result =>
      let combined_errors := ast_validation.errors ++ pattern_result.issues
      let combined_warnings := ast_validation.warnings ++ pattern_result.warnings
      let combined_suggestions :=
        ast_validation.suggestions ++ pattern_result.suggestions
      let is_valid :=
        ast_validation.is_valid && decide (70 ≤ pattern_result.pattern_score)
      .ok { is_valid := is_valid
            errors := combined_errors
            warnings := combined_warnings
            suggestions := combined_suggestions }

/-! ### crewai_agent.py — the generation loop of generate_tool

The external generator (`_generate_code_with_claude`) is a parameter
`gen`, mapping the attempt number and the previous attempt's error list
(`None` on the first attempt) to the candidate it returns.  The loop
mirrors `while attempt <= self.max_retries` of `generate_tool`: the
budget argument counts the attempts still allowed
(`max_retries + 1 - attempts made`), `validate_tool` runs on each
candidate, and an invalid result is carried into the next attempt as
`previous_errors`.  `LoopResult` records how often `gen` was invoked,
the `previous_errors` argument passed at each invocation, and the final
validation result (or the uncaught exception that ended the request). -/

structure LoopResult where
  invocations : Nat
  priorErrorsTrace : List (Option (List String))
  outcome : Except String ValidationResult

def runLoop (gen : Nat → Option (List String) → Candidate) :
    Nat → Nat → Option (List String) → LoopResult
  | 0, _, _ => ⟨0, [], .error "loop not entered"⟩
  | budget + 1, attempt, previous_errors =>
    let generated_code := gen attempt previous_errors
    match validate_tool generated_code with
    | .error e => ⟨1, [previous_errors], .error e⟩
    | .ok validation_result =>
      if validation_result.is_valid then
        ⟨1, [previous_errors], .ok validation_result⟩
      else if budget == 0 then
        ⟨1, [previous_errors], .ok validation_result⟩
      else
        let rest := runLoop gen budget (attempt + 1) (some validation_result.errors)
        ⟨rest.invocations + 1, previous_errors :: rest.priorErrorsTrace, rest.outcome⟩

/-- The dependency gate and retry loop of
`CrewAIToolGenerator.generate_tool`.  `strict` is the flag of the
`DependencyValidator.validate` call; the call in the source passes no
flag, so the source's behaviour is `strict := false`.  When
`can_proceed` is false the method raises
`ValueError(f"Unsupported dependencies: ...")` before any generation
attempt. -/
def generate_tool_run (strict : Bool) (dependencies : List String)
    (gen : Nat → Option (List String) → Candidate) (max_retries : Nat) :
    LoopResult :=
  let dependency_validation := dependencyValidate dependencies strict true
  if !dependency_validation.can_proceed then
    ⟨0, [],
      .error ("Unsupported dependencies: " ++
        joinSep ", " dependency_validation.unsupported)⟩
  else
    runLoop gen (max_retries + 1) 1 none

/-! ### Response payloads (service.py and crewai_agent.py) -/

inductive JValue where
  | null
  | str (s : String)
  | jbool (b : Bool)
  | num (n : Nat)
  | arr (xs : List JValue)
  | obj (fields : List (String × JValue))

/-- `DependencyValidationResult.to_dict`. -/
def dvToDict (r : DependencyValidationResult) : JValue :=
  .obj [
    ("all_supported", .jbool r.all_supported),
    ("supported", .arr (r.supported.map .str)),
    ("unsupported", .arr (r.unsupported.map .str)),
    ("stdlib", .arr (r.stdlib.map .str)),
    ("external", .arr (r.external.map .str)),
    ("alternatives", .obj (r.alternatives.map fun p => (p.1, .arr (p.2.map .str)))),
    ("manual_implementation_needed", .jbool r.manual_implementation_needed),
    ("warnings", .arr (r.warnings.map .str)),
    ("suggestions", .arr (r.suggestions.map .str)),
    ("can_proceed", .jbool r.can_proceed),
    ("severity", .str r.severity),
    ("summary", .obj [
      ("total", .num (r.supported.length + r.unsupported.length)),
      ("supported_count", .num r.supported.length),
      ("unsupported_count", .num r.unsupported.length),
      ("stdlib_count", .num r.stdlib.length),
      ("external_count", .num r.external.length)])]

/-- The `deployment_instructions` dict assembled in step 4 of
`generate_tool` (the last two keys are added only when unsupported
dependencies exist). -/
def deployment_instructions_dict (specName : String) (deps : List String)
    (dv : DependencyValidationResult) : List (String × JValue) :=
  let base := [
    ("usage", JValue.str ("from generated_tools." ++ pyLower specName ++
      " import " ++ specName)),
    ("dependencies", JValue.arr (deps.map JValue.str)),
    ("install_command",
      if deps.isEmpty then JValue.null
      else JValue.str ("pip install " ++ joinSep " " deps)),
    ("dependency_validation", dvToDict dv)]
  if dv.unsupported.isEmpty then base
  else base ++ [
    ("warnings", JValue.arr (dv.warnings.map JValue.str)),
    ("manual_implementation_note", JValue.str
      ("Some dependencies are not supported in CrewAI-Studio. " ++
       "The generated code uses manual implementations with Python stdlib."))]

/-- `GeneratedTool` of base_classes.py. -/
structure GeneratedTool where
  tool_code : String
  tool_config : List (String × JValue)
  dependencies : List String
  validation : ValidationResult
  documentation : Option String
  deployment_instructions : List (String × JValue)

/-- The `GeneratedTool` assembled in step 5 of `generate_tool`. -/
def assembleGeneratedTool (specName display_name category version author :
    String) (deps : List String) (code : String) (vr : ValidationResult)
    (documentation : String) (dv : DependencyValidationResult) :
    GeneratedTool :=
  { tool_code := code
    tool_config := [
      ("name", JValue.str specName),
      ("display_name", JValue.str display_name),
      ("category", JValue.str category),
      ("version", JValue.str version),
      ("author", JValue.str author)]
    dependencies := deps
    validation := vr
    documentation := some documentation
    deployment_instructions := deployment_instructions_dict specName deps dv }

/-- The HTTP response body of `generate_tool_endpoint` in service.py
("Flowise-compatible format"). -/
def generate_tool_endpoint_response (result : GeneratedTool) :
    List (String × JValue) :=
  [("code", JValue.str result.tool_code),
   ("documentation", JValue.str (result.documentation.getD ""))]

/-- The `validation` sub-object of `_save_generation_response_to_json`. -/
def validationToDict (v : ValidationResult) : JValue :=
  .obj [
    ("is_valid", .jbool v.is_valid),
    ("errors", .arr (v.errors.map .str)),
    ("warnings", .arr (v.warnings.map .str)),
    ("suggestions", .arr (v.suggestions.map .str))]

/-- The `response_data` dict of
`CrewAIToolGenerator._save_generation_response_to_json` (the timestamp
is an input from the clock). -/
def save_generation_response_data (t : GeneratedTool)
    (generated_at : String) : List (String × JValue) :=
  [("tool_code", JValue.str t.tool_code),
   ("tool_config", JValue.obj t.tool_config),
   ("dependencies", JValue.arr (t.dependencies.map JValue.str)),
   ("validation", validationToDict t.validation),
   ("documentation",
     match t.documentation with
     | some d => JValue.str d
     | none => JValue.null),
   ("deployment_instructions", JValue.obj t.deployment_instructions),
   ("generated_at", JValue.str generated_at),
   ("platform", JValue.str "crewai")]

/-! ### Spec-side definition for the alternatives rule (refinement)

The spec describes the alternatives computation as: (a) the explicit
lookup table, else (b) the substring heuristic, else (c) the generic
fallback.  The source computes the lookup first and lets the heuristic
override it.  `get_alternatives_spec` follows the spec's wording so the
two can be compared. -/

def get_alternatives_spec (library_name : String) : List String :=
  let l := pyLower library_name
  match ALTERNATIVES_MAP.lookup l with
  | some v => v
  | none =>
    if pyIn "http" l || pyIn "web" l then
      ["requests", "httpx", "urllib.request (stdlib)"]
    else if pyIn "json" l then
      ["json (stdlib)", "orjson"]
    else if pyIn "csv" l then
      ["csv (stdlib)", "pandas"]
    else
      ["Implement manually using Python stdlib"]

/-! ### Concrete candidates used by the theorems -/

/-- A parsed candidate with no raw-text shell markers. -/
def mkCand (body : List PyStmt) : Candidate :=
  { parsed := .ok ⟨body⟩
    textHasOsSystem := false
    textHasSubprocessCall := false
    textHasSubprocessPopen := false }

/-- A structurally valid tool class missing the `BaseModel`/`Field`
imports, docstrings, error handling and return annotations: the
structural validator accepts it and the pattern score is exactly 70. -/
def candSeventy : Candidate := mkCand [
  .impFrom (some "crewai.tools") ["BaseTool"],
  .classDef "MyTool" [.name "BaseTool"] [
    .annAssign (.name "name") (some (.strConst "My Tool")),
    .annAssign (.name "description") (some (.strConst "A tool")),
    .annAssign (.name "args_schema") none,
    .funcDef "_run" 2 false [.passStmt],
    .funcDef "run" 2 false [.passStmt]]]

/-- `candSeventy` with class and method docstrings added: structurally
valid, pattern score 80, and still carrying the missing-imports pattern
issue. -/
def candEighty : Candidate := mkCand [
  .impFrom (some "crewai.tools") ["BaseTool"],
  .classDef "MyTool" [.name "BaseTool"] [
    .exprStmt (.strConst "My tool."),
    .annAssign (.name "name") (some (.strConst "My Tool")),
    .annAssign (.name "description") (some (.strConst "A tool")),
    .annAssign (.name "args_schema") none,
    .funcDef "_run" 2 false [.exprStmt (.strConst "Run."), .passStmt],
    .funcDef "run" 2 false [.passStmt]]]

/-- A module with a non-empty body and no class at all: the base-tool
signal is false. -/
def candNoBase : Candidate := mkCand [
  .funcDef "main" 1 false [.passStmt]]

/-- The parse of the empty source text: `ast.parse("")` succeeds with an
empty module body. -/
def candEmptySource : Candidate := mkCand []

/-- A candidate whose text fails to parse with the given error. -/
def candSynErr (e : PySynErr) : Candidate :=
  { parsed := .error e
    textHasOsSystem := false
    textHasSubprocessCall := false
    textHasSubprocessPopen := false }

/-- A candidate whose text does not parse. -/
def candUnparsable : Candidate :=
  { parsed := .error ⟨1, "invalid syntax"⟩
    textHasOsSystem := false
    textHasSubprocessCall := false
    textHasSubprocessPopen := false }

/-! ### Helper lemmas -/

lemma substrOf_joinSep (sep : String) :
    ∀ (l : List String) (pre d : String), d ∈ l →
      SubstrOf d (pre ++ joinSep sep l) := by
  intro l
  induction l with
  | nil => intro pre d h; cases h
  | cons x xs ih =>
    intro pre d hd
    cases xs with
    | nil =>
      rcases List.mem_singleton.mp hd with rfl
      exact ⟨pre, "", by simp [joinSep]⟩
    | cons y ys =>
      rcases List.mem_cons.mp hd with rfl | htail
      · exact ⟨pre, sep ++ joinSep sep (y :: ys),
          by simp [joinSep, String.append_assoc]⟩
      · obtain ⟨a, b, hab⟩ := ih (pre ++ x ++ sep) d htail
        refine ⟨a, b, ?_⟩
        rw [← hab]
        simp [joinSep, String.append_assoc]

lemma classifyStep_count_inv (x : String) (acc : List String × List String ×
    List String × List String × List (String × List String)) (d : String)
    (h : acc.1.count x = acc.2.2.1.count x + acc.2.2.2.1.count x) :
    (classifyStep acc d).1.count x =
      (classifyStep acc d).2.2.1.count x + (classifyStep acc d).2.2.2.1.count x := by
  obtain ⟨s, u, st, ex, al⟩ := acc
  simp only [classifyStep]
  split_ifs <;> simp_all [List.count_append] <;> omega

lemma classify_fold_count (x : String) :
    ∀ (deps : List String) (acc : List String × List String × List String ×
      List String × List (String × List String)),
      acc.1.count x = acc.2.2.1.count x + acc.2.2.2.1.count x →
      (deps.foldl classifyStep acc).1.count x =
        (deps.foldl classifyStep acc).2.2.1.count x +
          (deps.foldl classifyStep acc).2.2.2.1.count x := by
  intro deps
  induction deps with
  | nil => intro acc h; simpa using h
  | cons d rest ih =>
    intro acc h
    simpa [List.foldl_cons] using ih (classifyStep acc d)
      (classifyStep_count_inv x acc d h)

lemma classifyStep_len (acc : List String × List String × List String ×
    List String × List (String × List String)) (d : String) :
    (classifyStep acc d).1.length + (classifyStep acc d).2.1.length =
      acc.1.length + acc.2.1.length + 1 := by
  obtain ⟨s, u, st, ex, al⟩ := acc
  simp only [classifyStep]
  split_ifs <;> simp <;> omega

lemma classify_fold_len :
    ∀ (deps : List String) (acc : List String × List String × List String ×
      List String × List (String × List String)),
      (deps.foldl classifyStep acc).1.length +
        (deps.foldl classifyStep acc).2.1.length =
          acc.1.length + acc.2.1.length + deps.length := by
  intro deps
  induction deps with
  | nil => intro acc; simp
  | cons d rest ih =>
    intro acc
    rw [List.foldl_cons, ih (classifyStep acc d), classifyStep_len]
    simp
    omega

/-! ### C4 -/

/-- C4 (counterexample): on the duplicated input `["json", "json"]` the
classifier keeps both occurrences — `stdlib` lists `"json"` twice, so
the output components are not sets. -/
theorem c4_counterexample :
    (validate_dependencies ["json", "json"]).stdlib = ["json", "json"] ∧
      ¬ (validate_dependencies ["json", "json"]).stdlib.Nodup := by
  refine ⟨rfl, ?_⟩
  decide

/-- C4 (amended): the classifier preserves duplicates; the four output
components are lists with one entry per input occurrence — `supported`
and `unsupported` together exhaust the input, and `supported` is a
permutation of `stdlib ++ external` (the multiset union). -/
theorem c4_theorem (deps : List String) :
    (validate_dependencies deps).supported.Perm
        ((validate_dependencies deps).stdlib ++
          (validate_dependencies deps).external) ∧
      (validate_dependencies deps).supported.length +
          (validate_dependencies deps).unsupported.length = deps.length := by
  constructor
  · refine List.perm_iff_count.mpr fun x => ?_
    rw [List.count_append]
    exact classify_fold_count x deps ([], [], [], [], []) (by simp)
  · simpa using classify_fold_len deps ([], [], [], [], [])

/-! ### C9 -/

lemma is_stdlib_imp_supported {name : String} (h : is_stdlib name = true) :
    is_supported name = true := by
  simp [is_supported, h]

lemma alternatives_map_values (k : String) (v : List String)
    (h : ALTERNATIVES_MAP.lookup k = some v) :
    v ≠ [] ∧
      ((pyIn "http" k || pyIn "web" k) = true →
        v = ["requests", "httpx", "urllib.request (stdlib)"]) ∧
      ((pyIn "http" k || pyIn "web" k) = false → pyIn "json" k = true →
        v = ["json (stdlib)", "orjson"]) ∧
      ((pyIn "http" k || pyIn "web" k) = false → pyIn "json" k = false →
        pyIn "csv" k = true → v = ["csv (stdlib)", "pandas"]) := by
  simp only [ALTERNATIVES_MAP, List.lookup] at h
  repeat' split at h
  all_goals cases h
  all_goals
    rename_i hk
    rw [beq_iff_eq] at hk
    subst hk
    exact ⟨by decide, by decide, by decide, by decide⟩

/-- The source's `get_alternatives` (heuristic overrides the lookup) and
the spec's ordering (lookup first, else heuristic, else fallback) agree
on every name: the only lookup keys a heuristic also matches are
`simplejson` and `ujson`, where the two values coincide. -/
lemma get_alternatives_eq_spec (name : String) :
    get_alternatives name = get_alternatives_spec name := by
  unfold get_alternatives get_alternatives_spec
  cases hl : ALTERNATIVES_MAP.lookup (pyLower name) with
  | none => simp [hl]
  | some v =>
    obtain ⟨hne, h1, h2, h3⟩ := alternatives_map_values _ _ hl
    simp only [hl, Option.getD_some]
    by_cases hh : (pyIn "http" (pyLower name) || pyIn "web" (pyLower name)) = true
    · simp [hh, h1 hh]
    · rw [Bool.not_eq_true] at hh
      by_cases hj : pyIn "json" (pyLower name) = true
      · simp [hh, hj, h2 hh hj]
      · rw [Bool.not_eq_true] at hj
        by_cases hc : pyIn "csv" (pyLower name) = true
        · simp [hh, hj, hc, h3 hh hj hc]
        · rw [Bool.not_eq_true] at hc
          simp [hh, hj, hc]

lemma get_alternatives_ne_nil (name : String) : get_alternatives name ≠ [] := by
  unfold get_alternatives
  cases hl : ALTERNATIVES_MAP.lookup (pyLower name) with
  | none =>
    simp only [hl, Option.getD_none]
    split_ifs <;> simp
  | some v =>
    obtain ⟨hne, -, -, -⟩ := alternatives_map_values _ _ hl
    simp only [hl, Option.getD_some]
    split_ifs <;> simp [hne]

/-- C9: per-name classification — `stdlib` on a case-sensitive
base-module match of the always-available registry (`is_stdlib`), else
`external` on a case-insensitive match of the approved-external registry
(`is_supported`), else `unsupported` with a non-empty alternatives list
that agrees with the spec's lookup/heuristic/fallback ordering. -/
theorem c9_theorem (name : String) :
    (validate_dependencies [name]).stdlib =
        (if is_stdlib name then [name] else []) ∧
      (validate_dependencies [name]).external =
        (if is_stdlib name then []
         else if is_supported name then [name] else []) ∧
      (validate_dependencies [name]).unsupported =
        (if is_supported name then [] else [name]) ∧
      (validate_dependencies [name]).alternatives =
        (if is_supported name then []
         else [(name, get_alternatives name)]) ∧
      get_alternatives name ≠ [] ∧
      get_alternatives name = get_alternatives_spec name := by
  have halt := get_alternatives_ne_nil name
  have hspec := get_alternatives_eq_spec name
  by_cases h1 : is_stdlib name
  · have h2 := is_stdlib_imp_supported h1
    refine ⟨?_, ?_, ?_, ?_, halt, hspec⟩ <;>
      simp [validate_dependencies, classifyStep, h1, h2]
  · by_cases h2 : is_supported name
    · refine ⟨?_, ?_, ?_, ?_, halt, hspec⟩ <;>
        simp [validate_dependencies, classifyStep, h1, h2]
    · refine ⟨?_, ?_, ?_, ?_, halt, hspec⟩ <;>
        simp [validate_dependencies, classifyStep, dictSet, h1, h2]

/-! ### Loop lemmas -/

lemma runLoop_invocations_le (gen : Nat → Option (List String) → Candidate) :
    ∀ (budget attempt : Nat) (prev : Option (List String)),
      (runLoop gen budget attempt prev).invocations ≤ budget := by
  intro budget
  induction budget with
  | zero => intro a p; simp [runLoop]
  | succ b ih =>
    intro a p
    simp only [runLoop]
    split
    · simp
    · split
      · simp
      · split
        · simp
        · simpa using Nat.succ_le_succ (ih (a + 1) _)

lemma runLoop_budget_one (gen : Nat → Option (List String) → Candidate)
    (a : Nat) (p : Option (List String)) :
    (runLoop gen 1 a p).invocations = 1 := by
  simp only [runLoop]
  split
  · rfl
  · split
    · rfl
    · split
      · rfl
      · simp_all

lemma canProceed_nonstrict (deps : List String) (sm : Bool) :
    (dependencyValidate deps false sm).can_proceed = true := by
  simp [dependencyValidate]

/-! ### C2 -/

/-- C2: the orchestrator loop invokes the external generator at most
`max_retries + 1` times (for the strict-mode dependency abort it makes
none), and with `max_retries = 0` under the orchestrator's own
non-strict dependency call it makes exactly one attempt. -/
theorem c2_theorem :
    (∀ (strict : Bool) (deps : List String)
        (gen : Nat → Option (List String) → Candidate) (max_retries : Nat),
        (generate_tool_run strict deps gen max_retries).invocations ≤
          max_retries + 1) ∧
      (∀ (deps : List String) (gen : Nat → Option (List String) → Candidate),
        (generate_tool_run false deps gen 0).invocations = 1) := by
  constructor
  · intro strict deps gen mr
    simp only [generate_tool_run]
    split
    · simp
    · exact runLoop_invocations_le gen (mr + 1) 1 none
  · intro deps gen
    simp only [generate_tool_run, canProceed_nonstrict deps true]
    simpa using runLoop_budget_one gen 1 none

/-! ### C3 -/

/-- C3 (the code contradicts the claim): on the empty source text —
which `ast.parse` accepts with an empty module body —
`PatternMatcher.analyze` raises `IndexError` from
`_check_docstrings`'s `tree.body[0]` instead of returning a
`PatternMatchResult`; only `SyntaxError` is caught and converted into
the zero-score result. -/
theorem c3_theorem :
    analyze candEmptySource = .error "IndexError: list index out of range" ∧
      ∀ e : PySynErr,
        (analyze (candSynErr e)).toOption.map (·.pattern_score) = some 0 := by
  exact ⟨rfl, fun e => rfl⟩

/-! ### C1 -/

/-- C1 (counterexample): `candSeventy` is structurally valid with
pattern score 70 — below 80 — yet the merged gate result has
`is_valid = true`, because `validate_tool` thresholds the score at 70,
not 80. -/
theorem c1_counterexample :
    (validatorValidate candSeventy).is_valid = true ∧
      (analyze candSeventy).toOption.map (·.pattern_score) = some 70 ∧
      ¬ (80 ≤ 70) ∧
      (validate_tool candSeventy).toOption.map (·.is_valid) = some true := by
  refine ⟨by decide, by decide, by omega, by decide⟩

/-- C1 (amended): whenever the gate returns a merged result, its
`is_valid` equals (structural `is_valid`) AND (pattern score ≥ 70). -/
theorem c1_theorem (c : Candidate) (vr : ValidationResult)
    (pr : PatternMatchResult) (h1 : validate_tool c = .ok vr)
    (h2 : analyze c = .ok pr) :
    vr.is_valid =
      ((validatorValidate c).is_valid && decide (70 ≤ pr.pattern_score)) := by
  unfold validate_tool at h1
  rw [h2] at h1
  injection h1 with h
  subst h
  rfl

theorem c1_witness :
    ∃ vr pr, validate_tool candSeventy = .ok vr ∧
      analyze candSeventy = .ok pr ∧
      vr.is_valid =
        ((validatorValidate candSeventy).is_valid &&
          decide (70 ≤ pr.pattern_score)) := by
  refine ⟨_, _, rfl, rfl, ?_⟩
  exact c1_theorem candSeventy _ _ rfl rfl

/-! ### C5 -/

lemma score_le_75_of_no_base :
    ∀ (run args doc err imp ty attrs : Bool),
      calculate_pattern_score false run args doc err imp ty attrs ≤ 75 := by
  decide

/-- C5: when no class inherits the required base type, the pattern
scorer's `matches_pattern` is false (the base-tool signal is a
conjunct) and the score is at most `100 − 25 = 75`. -/
theorem c5_theorem (c : Candidate) (r : PatternMatchResult)
    (h : analyze c = .ok r) (hb : r.has_base_tool = false) :
    r.matches_pattern = false ∧ r.pattern_score ≤ 75 := by
  unfold analyze at h
  split at h
  · injection h with hr
    subst hr
    exact ⟨rfl, by simp⟩
  · split at h
    · cases h
    · injection h with hr
      subst hr
      simp only at hb
      constructor
      · simp only [hb, Bool.and_false, Bool.false_and]
      · simpa only [hb] using score_le_75_of_no_base _ _ _ _ _ _ _

theorem c5_witness :
    ∃ r, analyze candNoBase = .ok r ∧ r.has_base_tool = false ∧
      r.matches_pattern = false ∧ r.pattern_score ≤ 75 := by
  refine ⟨_, rfl, rfl, ?_, ?_⟩
  · exact (c5_theorem candNoBase _ rfl rfl).1
  · exact (c5_theorem candNoBase _ rfl rfl).2

/-! ### C6 -/

/-- C6: a strict-mode classification with unsupported dependencies has
`can_proceed = false`, and the orchestrator's dependency gate then
raises before any generator invocation with a message that surfaces
every unsupported name. -/
theorem c6_theorem (deps : List String)
    (gen : Nat → Option (List String) → Candidate) (mr : Nat)
    (h : (dependencyValidate deps true true).unsupported ≠ []) :
    (dependencyValidate deps true true).can_proceed = false ∧
      (generate_tool_run true deps gen mr).invocations = 0 ∧
      ∃ msg, (generate_tool_run true deps gen mr).outcome = .error msg ∧
        ∀ d ∈ (dependencyValidate deps true true).unsupported,
          SubstrOf d msg := by
  have hne : (validate_dependencies deps).unsupported.isEmpty = false := by
    simp only [dependencyValidate] at h
    simpa [List.isEmpty_iff] using h
  have hcp : (dependencyValidate deps true true).can_proceed = false := by
    simp [dependencyValidate, hne]
  refine ⟨hcp, ?_, ?_⟩
  · simp only [generate_tool_run, hcp]
    rfl
  · refine ⟨"Unsupported dependencies: " ++
      joinSep ", " (dependencyValidate deps true true).unsupported, ?_, ?_⟩
    · simp only [generate_tool_run, hcp]
      rfl
    · intro d hd
      exact substrOf_joinSep ", " _ _ d hd

theorem c6_witness :
    (dependencyValidate ["fake_lib"] true true).unsupported ≠ [] ∧
      ((dependencyValidate ["fake_lib"] true true).can_proceed = false ∧
        (generate_tool_run true ["fake_lib"]
          (fun _ _ => candEmptySource) 0).invocations = 0 ∧
        ∃ msg, (generate_tool_run true ["fake_lib"]
            (fun _ _ => candEmptySource) 0).outcome = .error msg ∧
          ∀ d ∈ (dependencyValidate ["fake_lib"] true true).unsupported,
            SubstrOf d msg) := by
  refine ⟨by decide, ?_⟩
  exact c6_theorem ["fake_lib"] (fun _ _ => candEmptySource) 0 (by decide)

/-! ### C7 -/

/-- The merged validation result the gate produces for an unparsable
candidate: the structural validator's early syntax return combined with
the pattern scorer's zero-score syntax result. -/
def synErrVR (e : PySynErr) : ValidationResult :=
  { is_valid := false
    errors := [synErrLineMsg e, "Syntax error: " ++ pySynErrStr e]
    warnings := []
    suggestions := ["Fix syntax errors before proceeding",
      "Fix syntax errors before validation"] }

lemma validate_tool_synerr (c : Candidate) (e : PySynErr)
    (h : c.parsed = .error e) :
    validate_tool c = .ok (synErrVR e) := by
  unfold validate_tool validatorValidate analyze synErrVR
  rw [h]
  rfl

lemma runLoop_all_invalid (gen : Nat → Option (List String) → Candidate)
    (c : Candidate) (vrBad : ValidationResult)
    (hgen : ∀ i prev, gen i prev = c)
    (hval : validate_tool c = .ok vrBad)
    (hinv : vrBad.is_valid = false) :
    ∀ (b a : Nat) (prev : Option (List String)),
      runLoop gen (b + 1) a prev =
        ⟨b + 1, prev :: List.replicate b (some vrBad.errors), .ok vrBad⟩ := by
  intro b
  induction b with
  | zero =>
    intro a prev
    simp [runLoop, hgen, hval, hinv]
  | succ n ih =>
    intro a prev
    have h2 : runLoop gen (n + 1 + 1) a prev =
        ⟨(runLoop gen (n + 1) (a + 1) (some vrBad.errors)).invocations + 1,
          prev :: (runLoop gen (n + 1) (a + 1)
            (some vrBad.errors)).priorErrorsTrace,
          (runLoop gen (n + 1) (a + 1) (some vrBad.errors)).outcome⟩ := by
      conv_lhs => rw [runLoop]
      rw [hgen, hval]
      simp [hinv]
    rw [h2, ih (a + 1) (some vrBad.errors)]
    simp [List.replicate_succ]

lemma runLoop_all_synerr (gen : Nat → Option (List String) → Candidate)
    (herr : ∀ i prev, ∃ e : PySynErr, (gen i prev).parsed = .error e) :
    ∀ (b a : Nat) (prev : Option (List String)),
      (runLoop gen (b + 1) a prev).invocations = b + 1 ∧
        (runLoop gen (b + 1) a prev).priorErrorsTrace.length = b + 1 ∧
        (runLoop gen (b + 1) a prev).priorErrorsTrace.head? = some prev ∧
        (∃ e, (runLoop gen (b + 1) a prev).outcome = .ok (synErrVR e)) ∧
        ∀ pe ∈ (runLoop gen (b + 1) a prev).priorErrorsTrace.tail,
          ∃ e, pe =
            some [synErrLineMsg e, "Syntax error: " ++ pySynErrStr e] := by
  intro b
  induction b with
  | zero =>
    intro a prev
    obtain ⟨e, he⟩ := herr a prev
    have hv := validate_tool_synerr (gen a prev) e he
    have h2 : runLoop gen 1 a prev = ⟨1, [prev], .ok (synErrVR e)⟩ := by
      conv_lhs => rw [runLoop]
      rw [hv]
      rfl
    rw [h2]
    exact ⟨rfl, rfl, rfl, ⟨e, rfl⟩, by simp⟩
  | succ n ih =>
    intro a prev
    obtain ⟨e, he⟩ := herr a prev
    have hv := validate_tool_synerr (gen a prev) e he
    have h2 : runLoop gen (n + 1 + 1) a prev =
        ⟨(runLoop gen (n + 1) (a + 1)
            (some (synErrVR e).errors)).invocations + 1,
          prev :: (runLoop gen (n + 1) (a + 1)
            (some (synErrVR e).errors)).priorErrorsTrace,
          (runLoop gen (n + 1) (a + 1)
            (some (synErrVR e).errors)).outcome⟩ := by
      conv_lhs => rw [runLoop]
      rw [hv]
      rfl
    obtain ⟨ih1, ih2, ih3, ih4, ih5⟩ := ih (a + 1) (some (synErrVR e).errors)
    rw [h2]
    refine ⟨by simp [ih1], by simp [ih2], rfl, ih4, ?_⟩
    intro pe hpe
    rcases htr : (runLoop gen (n + 1) (a + 1)
        (some (synErrVR e).errors)).priorErrorsTrace with _ | ⟨hd, tl⟩
    · rw [htr] at hpe
      cases hpe
    · rw [htr] at hpe ih3 ih5
      simp only [List.head?_cons, Option.some.injEq] at ih3
      rcases List.mem_cons.mp hpe with rfl | htl
      · exact ⟨e, ih3⟩
      · exact ih5 pe (by simpa using htl)

/-- C7: if the generator returns unparsable text on every attempt, the
orchestrator exhausts exactly `max_retries + 1` attempts and ends with
the merged syntax-failure result: `is_valid = false` and an error list
containing the syntax error naming line and message; moreover every
attempt after the first receives as `previous_errors` exactly such a
specific syntax-error list, never a generic message. -/
theorem c7_theorem (deps : List String)
    (gen : Nat → Option (List String) → Candidate) (mr : Nat)
    (herr : ∀ i prev, ∃ e : PySynErr, (gen i prev).parsed = .error e) :
    (generate_tool_run false deps gen mr).invocations = mr + 1 ∧
      (generate_tool_run false deps gen mr).priorErrorsTrace.length =
        mr + 1 ∧
      (generate_tool_run false deps gen mr).priorErrorsTrace.head? =
        some none ∧
      (∃ e, (generate_tool_run false deps gen mr).outcome =
          .ok (synErrVR e) ∧ (synErrVR e).is_valid = false ∧
          synErrLineMsg e ∈ (synErrVR e).errors) ∧
      ∀ pe ∈ (generate_tool_run false deps gen mr).priorErrorsTrace.tail,
        ∃ e, pe = some [synErrLineMsg e, "Syntax error: " ++ pySynErrStr e] := by
  have hrun : generate_tool_run false deps gen mr =
      runLoop gen (mr + 1) 1 none := by
    simp only [generate_tool_run, canProceed_nonstrict deps true]
    rfl
  obtain ⟨h1, h2, h3, ⟨e, he⟩, h5⟩ := runLoop_all_synerr gen herr mr 1 none
  rw [hrun]
  exact ⟨h1, h2, h3, ⟨e, he, rfl, List.mem_cons_self _ _⟩, h5⟩

theorem c7_witness :
    (∀ (i : Nat) (prev : Option (List String)),
        ∃ e : PySynErr,
          ((fun (_ : Nat) (_ : Option (List String)) => candUnparsable)
            i prev).parsed = .error e) ∧
      ((generate_tool_run false [] (fun _ _ => candUnparsable)
            2).invocations = 2 + 1 ∧
        (generate_tool_run false [] (fun _ _ => candUnparsable)
            2).priorErrorsTrace.length = 2 + 1 ∧
        (generate_tool_run false [] (fun _ _ => candUnparsable)
            2).priorErrorsTrace.head? = some none ∧
        (∃ e, (generate_tool_run false [] (fun _ _ => candUnparsable)
              2).outcome = .ok (synErrVR e) ∧
            (synErrVR e).is_valid = false ∧
            synErrLineMsg e ∈ (synErrVR e).errors) ∧
        ∀ pe ∈ (generate_tool_run false [] (fun _ _ => candUnparsable)
            2).priorErrorsTrace.tail,
          ∃ e, pe =
            some [synErrLineMsg e, "Syntax error: " ++ pySynErrStr e]) := by
  refine ⟨fun _ _ => ⟨⟨1, "invalid syntax"⟩, rfl⟩, ?_⟩
  exact c7_theorem [] (fun _ _ => candUnparsable) 2
    (fun _ _ => ⟨⟨1, "invalid syntax"⟩, rfl⟩)

/-! ### C10 -/

/-- C10: the merged `is_valid` ignores the merged errors list —
`candEighty` is structurally valid with pattern score 80 (above the
gate's threshold), so the gate accepts it, while its merged errors list
is non-empty (it carries the pattern scorer's missing-imports issue). -/
theorem c10_theorem :
    (validatorValidate candEighty).is_valid = true ∧
      (analyze candEighty).toOption.map (·.pattern_score) = some 80 ∧
      (validate_tool candEighty).toOption.map (·.is_valid) = some true ∧
      (validate_tool candEighty).toOption.map (·.errors.isEmpty) =
        some false := by
  refine ⟨by decide, by decide, by decide, by decide⟩

/-! ### C8 -/

/-- A concrete successful generation outcome, used to evaluate the HTTP
response payload. -/
def gtExample : GeneratedTool :=
  assembleGeneratedTool "MyTool" "My Tool" "custom" "1.0.0"
    "Component Factory" ["requests"] "class MyTool: ..."
    ⟨true, [], [], []⟩ "docs"
    (dependencyValidate ["requests"] false true)

/-- C8 (counterexample): the HTTP response body of
`generate_tool_endpoint` has exactly the keys `code` and
`documentation` — the `validation`, `dependencies` and
`deployment_instructions` fields the claim requires are absent. -/
theorem c8_counterexample :
    (generate_tool_endpoint_response gtExample).map Prod.fst =
        ["code", "documentation"] ∧
      List.lookup "validation" (generate_tool_endpoint_response gtExample) =
        none ∧
      List.lookup "dependencies" (generate_tool_endpoint_response gtExample) =
        none ∧
      List.lookup "deployment_instructions"
        (generate_tool_endpoint_response gtExample) = none := by
  exact ⟨rfl, rfl, rfl, rfl⟩

/-- C8 (amended): the HTTP response payload carries exactly `code` and
`documentation`; the full contract fields live on the orchestrator's
generation-response object (under `tool_code` rather than `code`), whose
`validation` object has `is_valid`/`errors`/`warnings`/`suggestions` and
whose `deployment_instructions` contains at least `install_command` and
`dependency_validation`. -/
theorem c8_theorem (specName display_name category version author : String)
    (deps : List String) (code : String) (vr : ValidationResult)
    (docs : String) (dv : DependencyValidationResult)
    (generated_at : String) :
    (generate_tool_endpoint_response (assembleGeneratedTool specName
        display_name category version author deps code vr docs dv)).map
        Prod.fst = ["code", "documentation"] ∧
      (save_generation_response_data (assembleGeneratedTool specName
          display_name category version author deps code vr docs dv)
          generated_at).map Prod.fst =
        ["tool_code", "tool_config", "dependencies", "validation",
          "documentation", "deployment_instructions", "generated_at",
          "platform"] ∧
      List.lookup "validation" (save_generation_response_data
          (assembleGeneratedTool specName display_name category version
            author deps code vr docs dv) generated_at) =
        some (.obj [("is_valid", .jbool vr.is_valid),
          ("errors", .arr (vr.errors.map .str)),
          ("warnings", .arr (vr.warnings.map .str)),
          ("suggestions", .arr (vr.suggestions.map .str))]) ∧
      ((deployment_instructions_dict specName deps dv).map
          Prod.fst).contains "install_command" = true ∧
      ((deployment_instructions_dict specName deps dv).map
          Prod.fst).contains "dependency_validation" = true := by
  refine ⟨rfl, rfl, rfl, ?_, ?_⟩ <;>
    · unfold deployment_instructions_dict
      repeat' split
      all_goals rfl

end CrewaiGen
